import Mathlib

/-!
Verification of the bonner-caching repository.

This file gives a shallow embedding of the cache core:
* the identifier builder (`create_identifier` and `Cacher.create_identifier`
  in `src/bonner/caching/caching.py`),
* the constructor checks (`Cacher.__init__` in `caching.py` and in
  `src/bonner/caching/_cacher.py`),
* the glob-based storage lookup (`Cacher.is_stored` in `caching.py`),
* the five-mode cache wrapper (`Cacher.__call__.wrapper`, identical mode
  machine in `caching.py` and `_cacher.py`),
* the per-call handler lookup of `_cacher.py` (`_save`/`_load` call
  `get_handler`; the registry itself lives in `_handlers.py`, which is
  modelled from the spec).

Python values are modelled by their observable features used by the code:
the `str(value)` form and the `__class__.__name__` of the value.  Exceptions
are modelled with `Except String`; filesystem state is passed explicitly
(the cache directory is a list of relative file paths, the cache cell for a
fixed identifier is an `Option` value).
-/

namespace BonnerCaching

/-- A Python value as observed by the identifier builder: its `str(...)`
form and its `__class__.__name__`. -/
structure PyVal where
  str : String
  className : String
deriving DecidableEq, Repr

/-- `occursAt needle hay`: does `needle` occur as a leading sublist of `hay`? -/
def occursAt : List Char → List Char → Bool
  | [], _ => true
  | _ :: _, [] => false
  | n :: ns, c :: cs => n == c && occursAt ns cs

/-- `containsSub hay needle`: does `needle` occur as a contiguous sublist of
`hay`?  (Embeds the Python substring test `needle in hay`.) -/
def containsSub : List Char → List Char → Bool
  | [], needle => needle.isEmpty
  | c :: cs, needle => occursAt needle (c :: cs) || containsSub cs needle

/-- The Python test `"object at" in str(object)` from `create_identifier`. -/
def containsObjAt (s : String) : Bool :=
  containsSub s.data "object at".data

/-- `str(value).replace("/", "_")` from `create_identifier`: every `/`
character of the string is replaced by `_`. -/
def replaceSlash (s : String) : String :=
  ⟨s.data.map fun c => if c == '/' then '_' else c⟩

/-- Python `sep.join(parts)`. -/
def joinWith (sep : String) : List String → String
  | [] => ""
  | [a] => a
  | a :: b :: rest => a ++ sep ++ joinWith sep (b :: rest)

/-- The display form used for a `self` receiver in `create_identifier`
(`caching.py:130-134`): if `str(object)` contains "object at" (the default
`repr`, which is not meaningful), use the bare class name, otherwise use
`ClassName(str(object))`. -/
def selfDisplay (o : PyVal) : String :=
  if containsObjAt o.str then o.className
  else o.className ++ "(" ++ o.str ++ ")"

/-- The `params` string of `create_identifier` (`caching.py:138-140`):
`",".join(f"{key}={str(value).replace('/', '_')}" ...)`. -/
def paramString (call_args : List (String × PyVal)) : String :=
  joinWith "," (call_args.map fun kv => kv.1 ++ "=" ++ replaceSlash kv.2.str)

/-- `create_identifier(function, call_args)` from `caching.py:126-145`.
`module` and `fname` stand for `function.__module__` and
`function.__name__`; `call_args` is the bound-argument mapping, an ordered
association list with (Python-dict) unique keys.  When a `self` key is
present its display form is inserted between module and function name and
the `self` entry is deleted from the argument mapping.  The final
`str(Path(module) / params)` is the `/`-join of the two components. -/
def create_identifier (module fname : String)
    (call_args : List (String × PyVal)) : String :=
  match List.lookup "self" call_args with
  | some obj =>
    let rest := call_args.filter fun kv => kv.1 != "self"
    let m := joinWith "." [module, selfDisplay obj, fname]
    let params := paramString rest
    if params ≠ "" then m ++ "/" ++ params else m ++ "/_"
  | none =>
    let m := joinWith "." [module, fname]
    let params := paramString call_args
    if params ≠ "" then m ++ "/" ++ params else m ++ "/_"

/-- The construction-time configuration of the legacy `Cacher`
(`caching.py:18-32`). -/
structure CacherConfig where
  include_args : List String
  exclude_args : List String
  custom_identifier : String
deriving DecidableEq, Repr

/-- `Cacher.__init__` from `caching.py:18-32`.  The first component of the
result is the trace of directories created with `mkdir`; the second is the
constructed configuration or the construction-time assertion error.  The
assert on `include_args`/`exclude_args` runs before the `mkdir` of the
cache directory, so a failing construction creates no directory. -/
def Cacher.init (include_args exclude_args : List String)
    (custom_identifier : String) (cache_dir : String) :
    List String × Except String CacherConfig :=
  if include_args ≠ [] ∧ exclude_args ≠ [] then
    ([], .error "only one of 'include_args' and 'exclude_args' can be specified")
  else
    ([cache_dir], .ok ⟨include_args, exclude_args, custom_identifier⟩)

/-- The argument filtering of `Cacher.create_identifier`
(`caching.py:108-119`): a non-empty `exclude_args` removes the listed keys,
otherwise a non-empty `include_args` keeps only the listed keys, otherwise
all bound arguments participate. -/
def filteredArgs (cfg : CacherConfig) (call_args : List (String × PyVal)) :
    List (String × PyVal) :=
  if cfg.exclude_args ≠ [] then
    call_args.filter fun kv => !(cfg.exclude_args.contains kv.1)
  else if cfg.include_args ≠ [] then
    call_args.filter fun kv => cfg.include_args.contains kv.1
  else
    call_args

/-- `Cacher.create_identifier` from `caching.py:107-123`: filter the bound
arguments, build the identifier, and append `_{custom_identifier}` when a
custom identifier is configured. -/
def Cacher.create_identifier (cfg : CacherConfig) (module fname : String)
    (call_args : List (String × PyVal)) : String :=
  let identifier := BonnerCaching.create_identifier module fname
    (filteredArgs cfg call_args)
  if cfg.custom_identifier ≠ "" then
    identifier ++ "_" ++ cfg.custom_identifier
  else
    identifier

/-- The five cache modes (`caching.py:40-59`, `_cacher.py:118-137`). -/
inductive Mode
  | normal
  | readonly
  | overwrite
  | delete
  | ignore
deriving DecidableEq, Repr

/-- The observable outcome of one wrapped call, for a fixed identifier:
the returned value (or the propagated exception of the wrapped function
`F`), the cache cell for the identifier after the call, whether the body of
`F` was executed, and whether the cache was consulted for existence
(`is_stored` / `_get_path`). -/
structure CallOutcome (E α : Type) where
  result : Except E α
  cached : Option α
  executed : Bool
  consulted : Bool

/-- The body of `Cacher.__call__.wrapper` (`caching.py:40-64`,
`_cacher.py:118-143`), specialised to the cache cell of the call's
identifier.  `cached` is the artifact stored for the identifier before the
call (`is_stored` returns it on a hit, `load` reads it back); `f` is the
outcome of executing the wrapped function's body (an exception aborts the
branch before any subsequent `save`).

* `normal`: on a hit load and return; on a miss execute, save, return.
* `readonly`: on a hit load and return; on a miss execute and return.
* `overwrite`: execute, save (overwriting whatever was stored), return.
* `delete`: delete the artifact if present, then execute and return.
* `ignore`: execute and return; the cache is neither read nor written. -/
def wrapper {E α : Type} (mode : Mode) (cached : Option α) (f : Except E α) :
    CallOutcome E α :=
  match mode with
  | .normal =>
    match cached with
    | some v => ⟨.ok v, some v, false, true⟩
    | none =>
      match f with
      | .ok r => ⟨.ok r, some r, true, true⟩
      | .error e => ⟨.error e, none, true, true⟩
  | .readonly =>
    match cached with
    | some v => ⟨.ok v, some v, false, true⟩
    | none => ⟨f, none, true, true⟩
  | .overwrite =>
    match f with
    | .ok r => ⟨.ok r, some r, true, false⟩
    | .error e => ⟨.error e, cached, true, false⟩
  | .delete =>
    match f with
    | .ok r => ⟨.ok r, none, true, true⟩
    | .error e => ⟨.error e, none, true, true⟩
  | .ignore => ⟨f, cached, true, false⟩

/-- The set of valid mode strings (`_cacher.py:97`). -/
def validModes : List String :=
  ["normal", "readonly", "overwrite", "delete", "ignore"]

/-- The `if/elif` dispatch on the mode string shared by both wrapper bodies
(`caching.py:40-59`, `_cacher.py:118-137`). -/
def modeOfString (mode : String) : Option Mode :=
  if mode = "normal" then some .normal
  else if mode = "readonly" then some .readonly
  else if mode = "overwrite" then some .overwrite
  else if mode = "delete" then some .delete
  else if mode = "ignore" then some .ignore
  else none

/-- The legacy wrapper call (`caching.py:36-64`): the mode is the module
global `BONNER_CACHING_MODE`, consulted at call time; an unrecognised mode
string reaches the final `else` branch and raises `ValueError` during the
call. -/
def legacyWrapper {E α : Type} (mode : String) (cached : Option α)
    (f : Except E α) : Except String (CallOutcome E α) :=
  match modeOfString mode with
  | some m => .ok (wrapper m cached f)
  | none => .error ("$BONNER_CACHING_MODE cannot take the value " ++ mode)

/-- The template-based wrapper call (`_cacher.py:111-143`): same dispatch
on `self.mode`, with the `ValueError` of `_cacher.py:138-142` in the final
`else` branch. -/
def wrapperV2 {E α : Type} (mode : String) (cached : Option α)
    (f : Except E α) : Except String (CallOutcome E α) :=
  match modeOfString mode with
  | some m => .ok (wrapper m cached f)
  | none =>
    .error "mode must be one of 'normal', 'readonly', 'overwrite', 'delete', or 'ignore'"

/-- The construction-time configuration of the template-based `Cacher`
(`_cacher.py:16-104`), restricted to the fields the claims are about. -/
structure CacherV2Config where
  mode : String
  filetype : String
deriving DecidableEq, Repr

/-- `Cacher.__init__` from `_cacher.py:17-104`: the mode string is checked
against the set of valid modes by an assert; the filetype tag is stored
without any validation or handler lookup. -/
def CacherV2.init (mode filetype : String) : Except String CacherV2Config :=
  if mode ∈ validModes then .ok ⟨mode, filetype⟩
  else .error ("mode " ++ mode ++ " not supported")

/-- The serialization handlers of the Format Handler Registry. -/
inductive Handler
  | numpy
  | netCDF4
  | pickle
deriving DecidableEq, Repr

/-- Modelled from the spec: `get_handler` lives in
`src/bonner/caching/_handlers.py`, which is not in the source tree (only
its import in `_cacher.py:10` is).  Per the spec (section 4.2 and the
`_cacher.py` docstring), the registry maps the filetype tags "numpy",
"netCDF4" and "pickle" to their handlers and fails on any other tag. -/
def get_handler (filetype : String) : Except String Handler :=
  if filetype = "numpy" then .ok .numpy
  else if filetype = "netCDF4" then .ok .netCDF4
  else if filetype = "pickle" then .ok .pickle
  else .error ("unknown filetype " ++ filetype)

/-- `Cacher._save` from `_cacher.py:147-152`: the handler is looked up from
the stored filetype tag inside the call, then used to write the artifact.
The lookup (and hence any unknown-tag failure) is the part relevant to the
claims; the result is the resolved handler or the lookup error. -/
def CacherV2.save (cfg : CacherV2Config) : Except String Handler :=
  get_handler cfg.filetype

/-- `Cacher._load` from `_cacher.py:154-157`: the handler is likewise
looked up from the stored filetype tag inside the call. -/
def CacherV2.load (cfg : CacherV2Config) : Except String Handler :=
  get_handler cfg.filetype

/-- Split a character list on `/`, as `pathlib` splits a relative path or
glob pattern into segments. -/
def splitOnSlash : List Char → List (List Char)
  | [] => [[]]
  | '/' :: cs => [] :: splitOnSlash cs
  | c :: cs =>
    match splitOnSlash cs with
    | [] => [[c]]
    | seg :: rest => (c :: seg) :: rest

/-- `fnmatch`-style matching of one glob-pattern segment against one path
segment: `*` matches any sequence of characters within the segment, `?`
matches one character, anything else matches itself. -/
def fnmatch : List Char → List Char → Bool
  | [], s => s.isEmpty
  | '*' :: ps, s => (List.range (s.length + 1)).any fun k => fnmatch ps (s.drop k)
  | '?' :: ps, _ :: cs => fnmatch ps cs
  | p :: ps, c :: cs => p == c && fnmatch ps cs
  | _ :: _, [] => false

/-- `Path.glob` matching of a pattern against one relative file path: the
pattern and the path are split into `/`-segments, which must agree in
number and match segment-wise. -/
def globMatch (pattern file : String) : Bool :=
  let ps := splitOnSlash pattern.data
  let fs := splitOnSlash file.data
  ps.length == fs.length && (ps.zip fs).all fun pf => fnmatch pf.1 pf.2

/-- `Cacher.is_stored` from `caching.py:68-74`: glob the cache directory
for the identifier, assert that at most one file matches (raising
otherwise), and return the single match or `None`.  `cache_dir` is the
list of relative paths of the files currently in the cache directory; it
is returned unchanged because the lookup only reads the directory. -/
def is_stored (cache_dir : List String) (identifier : String) :
    Except String (Option String × List String) :=
  let filepaths := cache_dir.filter fun f => globMatch identifier f
  if filepaths.length ≤ 1 then
    if filepaths.length = 1 then .ok (filepaths.head?, cache_dir)
    else .ok (none, cache_dir)
  else
    .error "more than one file matches this identifier"

end BonnerCaching

namespace BonnerCaching

/-- The first joined part is no longer than the whole join. -/
lemma length_joinWith_cons (sep a : String) (l : List String) :
    a.length ≤ (joinWith sep (a :: l)).length := by
  cases l with
  | nil => simp [joinWith]
  | cons b t => simp [joinWith]; omega

/-- With at least one participating argument, the `params` string of the
identifier builder is non-empty (every entry contains an `=`). -/
lemma paramString_cons_ne_empty (kv : String × PyVal)
    (rest : List (String × PyVal)) : paramString (kv :: rest) ≠ "" := by
  intro h
  have hlen : (paramString (kv :: rest)).length = 0 := by rw [h]; rfl
  have hmap : paramString (kv :: rest) =
      joinWith "," ((kv.1 ++ "=" ++ replaceSlash kv.2.str) ::
        rest.map fun p => p.1 ++ "=" ++ replaceSlash p.2.str) := by
    simp [paramString]
  have hle := length_joinWith_cons "," (kv.1 ++ "=" ++ replaceSlash kv.2.str)
    (rest.map fun p => p.1 ++ "=" ++ replaceSlash p.2.str)
  rw [← hmap] at hle
  have hone : ("=" : String).length = 1 := rfl
  simp [String.length_append, hone] at hle
  omega

/-- Unfolding of the identifier builder when no `self` receiver is bound. -/
lemma create_identifier_no_self (module fname : String)
    (call_args : List (String × PyVal))
    (h : List.lookup "self" call_args = none) (hne : call_args ≠ []) :
    create_identifier module fname call_args =
      module ++ "." ++ fname ++ "/" ++ paramString call_args := by
  obtain ⟨kv, rest, rfl⟩ := List.exists_cons_of_ne_nil hne
  simp only [create_identifier, h]
  rw [if_pos (paramString_cons_ne_empty kv rest)]
  rfl

/-- Unfolding of the identifier builder when a `self` receiver is bound:
its display form joins module and function name with dots and the receiver
is dropped from the parameter list. -/
lemma create_identifier_with_self (module fname : String)
    (call_args : List (String × PyVal)) (o : PyVal)
    (h : List.lookup "self" call_args = some o)
    (hne : (call_args.filter fun kv => kv.1 != "self") ≠ []) :
    create_identifier module fname call_args =
      module ++ "." ++ selfDisplay o ++ "." ++ fname ++ "/" ++
        paramString (call_args.filter fun kv => kv.1 != "self") := by
  obtain ⟨kv, rest, heq⟩ := List.exists_cons_of_ne_nil hne
  simp only [create_identifier, h]
  rw [heq, if_pos (paramString_cons_ne_empty kv rest), ← heq]
  simp [joinWith, String.append_assoc]

/-- The replacement of `/` by `_` leaves no `/` in a stringified value. -/
lemma replaceSlash_no_slash (s : String) :
    ∀ c ∈ (replaceSlash s).data, c ≠ '/' := by
  intro c hc
  simp only [replaceSlash] at hc
  rcases List.mem_map.mp hc with ⟨d, _, rfl⟩
  by_cases hd : d = '/' <;> simp [hd]

/-- The mode-string dispatch recognises exactly the five valid modes. -/
lemma modeOfString_eq_none_iff (mode : String) :
    modeOfString mode = none ↔ mode ∉ validModes := by
  simp only [modeOfString, validModes, List.mem_cons, List.not_mem_nil, or_false]
  split_ifs with h1 h2 h3 h4 h5 <;> simp_all

/-- C1: the wrapper follows the five-mode state machine exactly.  In
`normal` a hit loads and returns the cached value and a miss executes `F`,
saves the result and returns it; in `readonly` a hit loads and returns the
cached value and a miss executes `F` and returns it without saving; in
`overwrite` `F` is executed, its result saved (overwriting any existing
artifact) and returned regardless of hit or miss; in `delete` any existing
artifact is deleted, then `F` is executed and returned without saving, so
the artifact is absent after the call regardless of prior state; in
`ignore` `F` is executed and returned and the cache is never consulted or
modified. -/
theorem C1_mode_state_machine {E α : Type} (v fval : α) (cached : Option α) :
    wrapper (E := E) .normal (some v) (.ok fval) = ⟨.ok v, some v, false, true⟩ ∧
    wrapper (E := E) .normal none (.ok fval) = ⟨.ok fval, some fval, true, true⟩ ∧
    wrapper (E := E) .readonly (some v) (.ok fval) = ⟨.ok v, some v, false, true⟩ ∧
    wrapper (E := E) .readonly none (.ok fval) = ⟨.ok fval, none, true, true⟩ ∧
    wrapper (E := E) .overwrite cached (.ok fval) = ⟨.ok fval, some fval, true, false⟩ ∧
    wrapper (E := E) .delete cached (.ok fval) = ⟨.ok fval, none, true, true⟩ ∧
    wrapper (E := E) .ignore cached (.ok fval) = ⟨.ok fval, cached, true, false⟩ :=
  ⟨rfl, rfl, rfl, rfl, rfl, rfl, rfl⟩

/-- C9: whenever the wrapped function's body runs and raises, the wrapper
propagates the error unchanged and performs no save, so the failing call
creates no cache entry (in `delete` mode the pre-existing artifact was
already deleted before the body ran; in every other mode the cache cell is
exactly what it was before the call). -/
theorem C9_error_propagation {E α : Type} (mode : Mode) (cached : Option α)
    (e : E) (h : (wrapper mode cached (Except.error e)).executed = true) :
    (wrapper mode cached (Except.error e)).result = .error e ∧
    (wrapper mode cached (Except.error e)).cached =
      (if mode = .delete then none else cached) := by
  cases mode <;> cases cached <;> simp_all [wrapper]

/-- Witness for C9 at a concrete input. -/
theorem C9_error_propagation_witness :
    (wrapper Mode.normal (none : Option Nat) (Except.error "boom")).result =
      .error "boom" ∧
    (wrapper Mode.normal (none : Option Nat) (Except.error "boom")).cached =
      (if Mode.normal = Mode.delete then none else none) :=
  C9_error_propagation .normal none "boom" rfl

/-- C2 counterexample: the legacy `Cacher` of `caching.py` performs no
construction-time mode validation (the mode is a module global consulted
only inside the wrapper), so with the mode string "bogus" construction
succeeds and the wrapped-function call itself raises the invalid-mode
`ValueError` — contradicting the claim that an invalid mode fails at
construction time and never at call time. -/
theorem C2_counterexample :
    (Cacher.init [] [] "" "root").2 = .ok ⟨[], [], ""⟩ ∧
    legacyWrapper (E := String) "bogus" (none : Option Nat) (Except.ok 0) =
      .error "$BONNER_CACHING_MODE cannot take the value bogus" :=
  ⟨rfl, rfl⟩

/-- C2 as amended: for the template-based `Cacher` of `_cacher.py` every
mode string outside the five valid values fails the construction-time
assert, a valid mode constructs successfully, and a successfully
constructed wrapper never reaches the call-time unknown-mode branch; the
legacy `Cacher` of `caching.py` checks the mode only at call time, where an
unknown mode raises `ValueError` on every call. -/
theorem C2_mode_validation (mode filetype : String) (cached : Option Nat)
    (f : Except String Nat) :
    (mode ∈ validModes → CacherV2.init mode filetype = .ok ⟨mode, filetype⟩) ∧
    (mode ∉ validModes →
      CacherV2.init mode filetype = .error ("mode " ++ mode ++ " not supported")) ∧
    (mode ∈ validModes → (wrapperV2 mode cached f).isOk = true) ∧
    (mode ∉ validModes → legacyWrapper mode cached f =
      .error ("$BONNER_CACHING_MODE cannot take the value " ++ mode)) := by
  refine ⟨fun h => by simp [CacherV2.init, h],
    fun h => by simp [CacherV2.init, h], fun h => ?_, fun h => ?_⟩
  · rcases ho : modeOfString mode with _ | m
    · rw [modeOfString_eq_none_iff] at ho
      exact absurd h ho
    · simp [wrapperV2, ho, Except.isOk, Except.toBool]
  · have ho : modeOfString mode = none := (modeOfString_eq_none_iff mode).mpr h
    simp [legacyWrapper, ho]

/-- Witness for C2's amended theorem at concrete inputs. -/
theorem C2_mode_validation_witness :
    CacherV2.init "normal" "pickle" = .ok ⟨"normal", "pickle"⟩ ∧
    (wrapperV2 "normal" (none : Option Nat)
      (Except.ok 0 : Except String Nat)).isOk = true :=
  ⟨(C2_mode_validation "normal" "pickle" none (.ok 0)).1 (by decide),
   (C2_mode_validation "normal" "pickle" none (.ok 0)).2.2.1 (by decide)⟩

/-- C3: the identifier builder is deterministic — for a fixed function
(module and name), fixed include/exclude filter and custom suffix, two
calls with equal bound-argument mappings (equal keys with equal string
forms) produce identical identifier strings; the builder is a pure
function of those inputs, with no I/O and no randomness. -/
theorem C3_identifier_deterministic (cfg : CacherConfig)
    (module fname : String) (a b : List (String × PyVal)) (h : a = b) :
    Cacher.create_identifier cfg module fname a =
      Cacher.create_identifier cfg module fname b := by
  rw [h]

/-- Witness for C3 at a concrete input. -/
theorem C3_identifier_deterministic_witness :
    Cacher.create_identifier ⟨[], [], ""⟩ "m" "f" [("x", ⟨"1", "int"⟩)] =
      Cacher.create_identifier ⟨[], [], ""⟩ "m" "f" [("x", ⟨"1", "int"⟩)] :=
  C3_identifier_deterministic ⟨[], [], ""⟩ "m" "f" _ _ rfl

/-- C4 counterexample: for a bound `self` receiver of class `Cls` the
built identifier is `m.Cls.f/x=1` — the class name is joined to the module
and function name with dots inside the leading path segment, so it is not
inserted as a path segment of its own (the identifier's segments are
`m.Cls.f` and `x=1`, and `Cls` is not among them), contradicting the
claim's "inserted as a path segment between the module and the function
name". -/
theorem C4_counterexample :
    create_identifier "m" "f"
      [("self", ⟨"<tests.Cls object at 0x7f>", "Cls"⟩), ("x", ⟨"1", "int"⟩)] =
      "m.Cls.f/x=1" ∧
    splitOnSlash ("m.Cls.f/x=1".data) = ["m.Cls.f".data, "x=1".data] ∧
    ¬ ("Cls".data ∈ splitOnSlash ("m.Cls.f/x=1".data)) := by
  refine ⟨by decide, by decide, by decide⟩

/-- C4 as amended: with no template, the built identifier has the shape
`<module>.<function name>/<key1>=<str(value1)>,<key2>=<str(value2)>,...`
where every `/` inside a stringified argument value is replaced by `_`;
when a `self` receiver is among the bound arguments, its class name (with
its string form appended in parentheses when that form is meaningful, per
`selfDisplay`) is inserted as a dot-separated component between the module
and the function name inside the leading path segment — not as a separate
path segment — and the receiver is excluded from the key=value list. -/
theorem C4_identifier_shape (module fname : String)
    (call_args : List (String × PyVal)) (o : PyVal) (s : String) :
    (List.lookup "self" call_args = none → call_args ≠ [] →
      create_identifier module fname call_args =
        module ++ "." ++ fname ++ "/" ++ paramString call_args) ∧
    (List.lookup "self" call_args = some o →
      (call_args.filter fun kv => kv.1 != "self") ≠ [] →
      create_identifier module fname call_args =
        module ++ "." ++ selfDisplay o ++ "." ++ fname ++ "/" ++
          paramString (call_args.filter fun kv => kv.1 != "self")) ∧
    (∀ c ∈ (replaceSlash s).data, c ≠ '/') :=
  ⟨create_identifier_no_self module fname call_args,
   create_identifier_with_self module fname call_args o,
   replaceSlash_no_slash s⟩

/-- Witness for C4's amended theorem at concrete inputs. -/
theorem C4_identifier_shape_witness :
    create_identifier "m" "f" [("x", ⟨"a/b", "str"⟩)] =
      "m" ++ "." ++ "f" ++ "/" ++ paramString [("x", ⟨"a/b", "str"⟩)] ∧
    create_identifier "m" "g" [("self", ⟨"hello", "Cls"⟩), ("x", ⟨"1", "int"⟩)] =
      "m" ++ "." ++ selfDisplay ⟨"hello", "Cls"⟩ ++ "." ++ "g" ++ "/" ++
        paramString ([("self", (⟨"hello", "Cls"⟩ : PyVal)),
          ("x", ⟨"1", "int"⟩)].filter fun kv => kv.1 != "self") :=
  ⟨(C4_identifier_shape "m" "f" [("x", ⟨"a/b", "str"⟩)] ⟨"", ""⟩ "").1
      (by decide) (by decide),
   (C4_identifier_shape "m" "g" [("self", ⟨"hello", "Cls"⟩), ("x", ⟨"1", "int"⟩)]
      ⟨"hello", "Cls"⟩ "").2.1 (by decide) (by decide)⟩

/-- C5 counterexample: with no participating arguments, no template and no
custom suffix, the builder does not fail — it returns the placeholder
identifier `module.f/_`, contradicting the claim that it fails with a
ConfigurationError (there is no such error path in
`Cacher.create_identifier` or `create_identifier`). -/
theorem C5_counterexample :
    Cacher.create_identifier ⟨[], [], ""⟩ "module" "f" [] = "module.f/_" := by
  decide

/-- C5 as amended: when a custom suffix is configured it is appended to
the computed identifier joined by an underscore, and this also happens
when the fallback placeholder segment `_` is used; when no arguments
participate and no custom suffix is configured the builder does not fail:
it returns the placeholder identifier `<module>.<function>/_`. -/
theorem C5_suffix_and_fallback (cfg : CacherConfig) (module fname : String)
    (call_args : List (String × PyVal)) :
    (cfg.custom_identifier ≠ "" →
      Cacher.create_identifier cfg module fname call_args =
        create_identifier module fname (filteredArgs cfg call_args) ++ "_" ++
          cfg.custom_identifier) ∧
    (filteredArgs cfg call_args = [] → cfg.custom_identifier = "" →
      Cacher.create_identifier cfg module fname call_args =
        module ++ "." ++ fname ++ "/_") ∧
    (filteredArgs cfg call_args = [] → cfg.custom_identifier ≠ "" →
      Cacher.create_identifier cfg module fname call_args =
        module ++ "." ++ fname ++ "/_" ++ "_" ++ cfg.custom_identifier) := by
  refine ⟨fun h => ?_, fun hargs hsuf => ?_, fun hargs hsuf => ?_⟩
  · simp [Cacher.create_identifier, h]
  · simp [Cacher.create_identifier, hargs, hsuf, create_identifier,
      paramString, joinWith]
  · simp [Cacher.create_identifier, hargs, hsuf, create_identifier,
      paramString, joinWith]

/-- Witness for C5's amended theorem at concrete inputs. -/
theorem C5_suffix_and_fallback_witness :
    Cacher.create_identifier ⟨[], [], "suf"⟩ "m" "f" [] =
      "m" ++ "." ++ "f" ++ "/_" ++ "_" ++ "suf" ∧
    Cacher.create_identifier ⟨[], [], ""⟩ "m" "f" [] = "m" ++ "." ++ "f" ++ "/_" :=
  ⟨(C5_suffix_and_fallback ⟨[], [], "suf"⟩ "m" "f" []).2.2 (by decide) (by decide),
   (C5_suffix_and_fallback ⟨[], [], ""⟩ "m" "f" []).2.1 (by decide) (by decide)⟩

/-- C6: constructing the legacy `Cacher` with both a non-empty include
filter and a non-empty exclude filter fails the construction-time assert
(before the wrapper exists, so never at call time) and creates no cache
directory (the assert precedes the `mkdir`, so the `mkdir` trace is
empty). -/
theorem C6_exclusive_filters (include_args exclude_args : List String)
    (suffix cache_dir : String) (hi : include_args ≠ [])
    (he : exclude_args ≠ []) :
    Cacher.init include_args exclude_args suffix cache_dir =
      ([], .error "only one of 'include_args' and 'exclude_args' can be specified") := by
  simp [Cacher.init, hi, he]

/-- Witness for C6 at a concrete input. -/
theorem C6_exclusive_filters_witness :
    Cacher.init ["a"] ["b"] "" "root" =
      ([], .error "only one of 'include_args' and 'exclude_args' can be specified") :=
  C6_exclusive_filters ["a"] ["b"] "" "root" (by decide) (by decide)

/-- C7: the glob-based storage lookup of `is_stored` returns an absence
value without raising when no stored artifact matches the identifier,
returns the path of the single matching artifact when exactly one matches,
and fails with the ambiguous-match assertion error when more than one
matches — leaving the cache directory untouched in every case (the
returned directory contents equal the input in the non-failing cases, and
the failing lookup performs no write at all). -/
theorem C7_ambiguous_lookup (cache_dir : List String) (identifier : String) :
    ((cache_dir.filter fun f => globMatch identifier f) = [] →
      is_stored cache_dir identifier = .ok (none, cache_dir)) ∧
    (∀ p, (cache_dir.filter fun f => globMatch identifier f) = [p] →
      is_stored cache_dir identifier = .ok (some p, cache_dir)) ∧
    (2 ≤ (cache_dir.filter fun f => globMatch identifier f).length →
      is_stored cache_dir identifier =
        .error "more than one file matches this identifier") := by
  refine ⟨fun h => by simp [is_stored, h], fun p h => by simp [is_stored, h],
    fun h => ?_⟩
  have hgt : ¬ ((cache_dir.filter fun f => globMatch identifier f).length ≤ 1) := by
    omega
  simp [is_stored, hgt]

/-- Witness for C7 at a concrete input. -/
theorem C7_ambiguous_lookup_witness :
    is_stored ["m.f/x=1"] "m.f/x=1" = .ok (some "m.f/x=1", ["m.f/x=1"]) :=
  (C7_ambiguous_lookup ["m.f/x=1"] "m.f/x=1").2.1 "m.f/x=1" (by decide)

/-- C8 counterexample: the template-based `Cacher` stores the filetype tag
without resolving it at construction — construction with the unknown tag
"bogus" succeeds, and the handler lookup (and its unknown-tag failure)
happens inside `_save` during a wrapped call, contradicting the claim that
the handler is resolved exactly once at construction time and that no
lookup occurs during a call. -/
theorem C8_counterexample :
    CacherV2.init "normal" "bogus" = .ok ⟨"normal", "bogus"⟩ ∧
    CacherV2.save ⟨"normal", "bogus"⟩ = .error "unknown filetype bogus" :=
  ⟨rfl, rfl⟩

/-- C8 as amended: the filetype tag is stored unvalidated at construction
(construction succeeds for any tag once the mode is valid), and the
handler is looked up from the tag inside each save and each load, so an
unknown tag fails with the registry error at the first save or load during
a wrapped call, while a known tag resolves to its handler there. -/
theorem C8_handler_lookup (mode tag : String) (hm : mode ∈ validModes) :
    CacherV2.init mode tag = .ok ⟨mode, tag⟩ ∧
    (tag ∉ ["numpy", "netCDF4", "pickle"] →
      CacherV2.save ⟨mode, tag⟩ = .error ("unknown filetype " ++ tag) ∧
      CacherV2.load ⟨mode, tag⟩ = .error ("unknown filetype " ++ tag)) ∧
    (tag ∈ ["numpy", "netCDF4", "pickle"] →
      (CacherV2.save ⟨mode, tag⟩).isOk = true ∧
      (CacherV2.load ⟨mode, tag⟩).isOk = true) := by
  refine ⟨by simp [CacherV2.init, hm], fun h => ?_, fun h => ?_⟩
  · simp only [List.mem_cons, List.not_mem_nil, or_false, not_or] at h
    obtain ⟨h1, h2, h3⟩ := h
    constructor <;> simp [CacherV2.save, CacherV2.load, get_handler, h1, h2, h3]
  · simp only [List.mem_cons, List.not_mem_nil, or_false] at h
    rcases h with rfl | rfl | rfl <;>
      constructor <;>
        simp [CacherV2.save, CacherV2.load, get_handler, Except.isOk, Except.toBool]

/-- Witness for C8's amended theorem at concrete inputs. -/
theorem C8_handler_lookup_witness :
    CacherV2.init "normal" "pickle" = .ok ⟨"normal", "pickle"⟩ ∧
    (CacherV2.save ⟨"normal", "pickle"⟩).isOk = true :=
  ⟨(C8_handler_lookup "normal" "pickle" (by decide)).1,
   ((C8_handler_lookup "normal" "pickle" (by decide)).2.2 (by decide)).1⟩

/-- C10: empty include and exclude collections at construction are treated
as the filters being unset — construction succeeds when both are empty,
with both filters empty every bound argument participates in the
identifier (an empty include list does not restrict the identifier to zero
arguments), and only a non-empty include collection filters the
participating arguments down to the listed keys. -/
theorem C10_empty_filters (suffix cache_dir : String)
    (call_args : List (String × PyVal)) (inc : List String) :
    ((Cacher.init [] [] suffix cache_dir).2 = .ok ⟨[], [], suffix⟩) ∧
    (filteredArgs ⟨[], [], suffix⟩ call_args = call_args) ∧
    (inc ≠ [] →
      filteredArgs ⟨inc, [], suffix⟩ call_args =
        call_args.filter fun kv => inc.contains kv.1) := by
  refine ⟨by simp [Cacher.init], by simp [filteredArgs],
    fun h => by simp [filteredArgs, h]⟩

/-- Witness for C10 at a concrete input. -/
theorem C10_empty_filters_witness :
    filteredArgs ⟨["x"], [], ""⟩ [("x", ⟨"1", "int"⟩), ("y", ⟨"2", "int"⟩)] =
      [(("x" : String), (⟨"1", "int"⟩ : PyVal)),
        ("y", ⟨"2", "int"⟩)].filter fun kv => ["x"].contains kv.1 :=
  (C10_empty_filters "" "root" [("x", ⟨"1", "int"⟩), ("y", ⟨"2", "int"⟩)]
    ["x"]).2.2 (by decide)

end BonnerCaching
